import Mathlib

/-!
Verification of the loadBillboard100 pipeline: a shallow embedding of
`billboard_import.py` (JSON chart entries → `hot100` relation) and
`export_to_html.py` (`hot100` relation → static HTML page), together with
proofs about the embedded operations.

The database itself is an external collaborator: the `hot100` relation is
modelled as a list of rows with the uniqueness constraint over
`(song, artist)` that the schema declares (per the spec, section 6).
-/

namespace Billboard

/-- Severity levels of the Python `logging` module that the two scripts use. -/
inductive LogLevel where
  | debug
  | info
  | warning
  | error
deriving DecidableEq

/-- A row of the `hot100` relation: columns `song` and `artist`.  Both are
nullable, because `billboard_import.py` line 53 inserts
`entry.get('song')` / `entry.get('artist')`, which are `None` when the JSON
entry lacks the field.  A transient chart entry carries exactly the same two
fields, so the same type models both. -/
structure Hot100Row where
  song : Option String
  artist : Option String
deriving DecidableEq

end Billboard

namespace BillboardImport

open Billboard

/-- Modelled from the spec: executing
`INSERT INTO hot100 (song, artist) VALUES (%s, %s)` against the `hot100`
table, whose schema (an external collaborator, spec section 6) carries a
uniqueness constraint spanning `(song, artist)`.  A duplicate pair raises
`IntegrityError` with errno 1062, which `process_json_file`
(billboard_import.py lines 56-58) catches and skips, so the net effect of
the guarded insert is: leave the relation unchanged when the pair is already
present, append the row otherwise. -/
def insert_hot100 (db : List Hot100Row) (r : Hot100Row) : List Hot100Row :=
  if r ∈ db then db else db ++ [r]

/-- Log level used by `process_json_file` when a duplicate entry is skipped
(billboard_import.py line 58: `logging.debug(f"Duplicate entry skipped: ...")`). -/
def duplicate_skip_log_level : LogLevel := .debug

/-- The observable outcome of opening and JSON-parsing one input file in
`process_json_file` (billboard_import.py lines 45-49):
* `unreadable`: `open` raised (missing path, permission, ...), caught by the
  `except Exception` handler at line 66;
* `badJson`: `json.load` raised `json.JSONDecodeError`, caught at line 64;
* `good entries`: the file parsed and `data.get('data', [])` yielded the
  given entries, each reduced to its `(song, artist)` projection. -/
inductive ParsedFile where
  | unreadable
  | badJson
  | good (entries : List Hot100Row)
deriving DecidableEq

/-- `process_json_file` (billboard_import.py lines 43-67): on a read or parse
fault the error is logged and the file contributes nothing; otherwise every
entry of the file is inserted through the guarded insert. -/
def process_json_file (f : ParsedFile) (db : List Hot100Row) : List Hot100Row :=
  match f with
  | .unreadable => db
  | .badJson => db
  | .good entries => entries.foldl insert_hot100 db

/-- The log line emitted by the two outer handlers of `process_json_file`
(billboard_import.py lines 64-67): both the JSON-parse fault and the generic
read fault are logged at error level; a successfully parsed file produces no
outer-handler log line. -/
def process_json_file_log (f : ParsedFile) : Option LogLevel :=
  match f with
  | .unreadable => some .error
  | .badJson => some .error
  | .good _ => none

/-- The state of the database connection seen by the importer: the rows the
server has committed, and the rows visible in the current transaction
(committed rows plus not-yet-committed inserts). -/
structure ConnState where
  committed : List Hot100Row
  txn : List Hot100Row
deriving DecidableEq

/-- Transaction-boundary calls issued by `main` (billboard_import.py):
`connection.commit()` at line 101, `connection.rollback()` at line 107. -/
inductive DbEvent where
  | commitEv
  | rollbackEv
deriving DecidableEq

/-- The `try` block of `main` (billboard_import.py lines 96-107): process the
files in order, committing once after each file.  `old` is an optional
injected fault position: `some k` means an exception escapes to the
`except Exception` handler while iterating on file `k` (before that file's
commit), upon which `connection.rollback()` runs and the loop is abandoned.
`faultAt = none` is the fault-free run, which never reaches the handler. -/
def main_loop (files : List ParsedFile) (faultAt : Option Nat) (st : ConnState) :
    ConnState × List DbEvent :=
  match files with
  | [] => (st, [])
  | f :: rest =>
    if faultAt = some 0 then
      ({ committed := st.committed, txn := st.committed }, [.rollbackEv])
    else
      let txn' := process_json_file f st.txn
      let st' : ConnState := { committed := txn', txn := txn' }
      let res := main_loop rest (faultAt.map (· - 1)) st'
      (res.1, .commitEv :: res.2)

/-- The importer's file-processing phase starting from an idle connection over
a database holding `db₀`. -/
def import_main (files : List ParsedFile) (faultAt : Option Nat)
    (db₀ : List Hot100Row) : ConnState × List DbEvent :=
  main_loop files faultAt { committed := db₀, txn := db₀ }

/-- Committed contents of the relation after a fault-free import run. -/
def run_import (files : List ParsedFile) (db₀ : List Hot100Row) : List Hot100Row :=
  (import_main files none db₀).1.committed

/-- Process exit code of `billboard_import.py`: `get_db_connection` calls
`sys.exit(1)` on a connection fault (line 41); no other path exits with a
non-zero status — the `except Exception` handler of `main` (lines 105-107)
logs and falls through to `finally`, so the process still exits 0. -/
def importer_exit_code (connOk : Bool) : Nat :=
  if connOk then 0 else 1

/-- All `(song, artist)` pairs encountered across the files that parsed
successfully (faulted files contribute no entries). -/
def encountered (files : List ParsedFile) : List Hot100Row :=
  files.foldr (fun f acc =>
    match f with
    | .good entries => entries ++ acc
    | _ => acc) []

end BillboardImport


namespace ExportToHtml

open Billboard

/-- One entry of the compiled-in `SEARCH_SITES` dict of `export_to_html.py`
(lines 12-23). -/
structure SiteInfo where
  site : String
  icon : String
  name : String
deriving DecidableEq

/-- `SEARCH_SITES['spotify']` (export_to_html.py lines 13-17). -/
def SEARCH_SITES_spotify : SiteInfo :=
  { site := "open.spotify.com", icon := "./spotify.png", name := "Spotify" }

/-- `SEARCH_SITES['apple_music']` (export_to_html.py lines 18-22). -/
def SEARCH_SITES_apple_music : SiteInfo :=
  { site := "music.apple.com", icon := "./applemusic.png", name := "Apple Music" }

/-- Uppercase hexadecimal digit, as used by `urllib.parse.quote`. -/
def hexDigit (n : Nat) : Char :=
  if n < 10 then Char.ofNat (48 + n) else Char.ofNat (55 + n)

/-- The UTF-8 encoding of a character, as a list of byte values; Python
percent-encodes non-safe characters byte by byte of their UTF-8 encoding. -/
def utf8Bytes (c : Char) : List Nat :=
  let n := c.toNat
  if n < 128 then [n]
  else if n < 2048 then [192 + n / 64, 128 + n % 64]
  else if n < 65536 then [224 + n / 4096, 128 + (n / 64) % 64, 128 + n % 64]
  else [240 + n / 262144, 128 + (n / 4096) % 64, 128 + (n / 64) % 64, 128 + n % 64]

/-- `%XX` encoding of one byte (uppercase hex, as CPython emits). -/
def percentByte (b : Nat) : List Char :=
  ['%', hexDigit (b / 16), hexDigit (b % 16)]

/-- Characters `urllib.parse.quote_plus` leaves unencoded when called with
`safe=''` (as `urllib.parse.urlencode` does): ASCII alphanumerics and
`_`, `.`, `-`, `~`. -/
def isUrlSafe (c : Char) : Bool :=
  c.isAlphanum || c = '_' || c = '.' || c = '-' || c = '~'

/-- Per-character action of `urllib.parse.quote_plus`: safe characters pass
through, a space becomes `+`, anything else is percent-encoded per UTF-8 byte. -/
def quotePlusChar (c : Char) : List Char :=
  if isUrlSafe c then [c]
  else if c = ' ' then ['+']
  else (utf8Bytes c).foldr (fun b acc => percentByte b ++ acc) []

/-- `urllib.parse.quote_plus` with `safe=''`, the encoder `urlencode` applies
to each value of its dict argument. -/
def quote_plus (s : String) : String :=
  ⟨s.data.foldr (fun c acc => quotePlusChar c ++ acc) []⟩

/-- `urllib.parse.urlencode({'q': v})` (export_to_html.py lines 59-62): the
key `q` is safe, so the result is `q=` followed by the quoted value. -/
def urlencode_q (v : String) : String :=
  "q=" ++ quote_plus v

/-- `create_search_url` (export_to_html.py lines 55-62): the Google search URL
whose query is the literal string `"{query} site:{site}"`, URL-encoded. -/
def create_search_url (site_info : SiteInfo) (query : String) : String :=
  "https://www.google.com/search" ++ "?" ++ urlencode_q (query ++ " site:" ++ site_info.site)

/-- Python `str.replace(old, new)` for a single-character pattern: every
occurrence of `old` is replaced by `new`, scanning left to right. -/
def replaceChar (old : Char) (new : List Char) : List Char → List Char
  | [] => []
  | c :: rest => (if c = old then new else [c]) ++ replaceChar old new rest

/-- The escaping applied to the artist and song fields by `create_table_row`
(export_to_html.py lines 144-145):
`.replace("&", "&amp;").replace("<", "&lt;").replace(">", "&gt;")`. -/
def escape_html (s : String) : String :=
  ⟨replaceChar '>' "&gt;".data
    (replaceChar '<' "&lt;".data
      (replaceChar '&' "&amp;".data s.data))⟩

/-- Simultaneous single-pass escaping: what each input character contributes
to the escaped output. -/
def escapeChar (c : Char) : List Char :=
  if c = '&' then "&amp;".data
  else if c = '<' then "&lt;".data
  else if c = '>' then "&gt;".data
  else [c]

/-- The `parts` list built by the `try` block of `create_table_row`
(export_to_html.py lines 140-160) for non-null `artist` and `song`: the
search query is formed from the original values (line 141) before the
escaping of lines 144-145, and the Apple Music link cell (line 154) is
appended before the Spotify link cell (line 158). -/
def create_table_row_parts (artist song : String) : List String :=
  let search_query := artist ++ " " ++ song
  let artistEsc := escape_html artist
  let songEsc := escape_html song
  ["<tr>",
   "<td>" ++ artistEsc ++ "</td>",
   "<td>" ++ songEsc ++ "</td>",
   "<td><a href=\"" ++ create_search_url SEARCH_SITES_apple_music search_query ++
     "\" target=\"_blank\"><img src=\"" ++ SEARCH_SITES_apple_music.icon ++
     "\" class=\"search-icon\" alt=\"" ++ SEARCH_SITES_apple_music.name ++ "\"></a></td>",
   "<td><a href=\"" ++ create_search_url SEARCH_SITES_spotify search_query ++
     "\" target=\"_blank\"><img src=\"" ++ SEARCH_SITES_spotify.icon ++
     "\" class=\"search-icon\" alt=\"" ++ SEARCH_SITES_spotify.name ++ "\"></a></td>",
   "</tr>"]

/-- `create_table_row` (export_to_html.py lines 138-164) on the two nullable
column values fetched from the database.  When either value is `None`, the
`.replace` call on it raises `AttributeError`, the `except` handler at line
162 logs the fault and the function returns the empty string; otherwise the
joined parts are returned. -/
def create_table_row (artist song : Option String) : String :=
  match artist, song with
  | some a, some s => "\n".intercalate (create_table_row_parts a s)
  | _, _ => ""

/-- Log line emitted by `create_table_row`'s `except` handler (export_to_html.py
line 163): error level exactly when row construction raised, i.e. when a
fetched column value is null. -/
def create_table_row_log (artist song : Option String) : Option LogLevel :=
  match artist, song with
  | some _, some _ => none
  | _, _ => some .error

/-- Order on nullable column values after MySQL ascending sort: `NULL`
orders before every string, strings compare lexicographically. -/
def OptStrLe : Option String → Option String → Prop
  | none, _ => True
  | some _, none => False
  | some a, some b => a ≤ b

/-- Strict version of `OptStrLe`. -/
def OptStrLt : Option String → Option String → Prop
  | none, none => False
  | none, some _ => True
  | some _, none => False
  | some a, some b => a < b

instance : DecidableRel OptStrLe := fun x y =>
  match x, y with
  | none, _ => isTrue trivial
  | some _, none => isFalse fun h => h
  | some a, some b => inferInstanceAs (Decidable (a ≤ b))

instance : DecidableRel OptStrLt := fun x y =>
  match x, y with
  | none, none => isFalse fun h => h
  | none, some _ => isTrue trivial
  | some _, none => isFalse fun h => h
  | some a, some b => inferInstanceAs (Decidable (a < b))

/-- Row order realised by the exporter's query
`SELECT artist, song FROM hot100 ORDER BY artist, song`
(export_to_html.py lines 187-191): by artist, ties broken by song. -/
def RowLe (r₁ r₂ : Hot100Row) : Prop :=
  OptStrLt r₁.artist r₂.artist ∨ (r₁.artist = r₂.artist ∧ OptStrLe r₁.song r₂.song)

instance : DecidableRel RowLe := fun _ _ =>
  inferInstanceAs (Decidable (_ ∨ _))

theorem optStrLe_total (x y : Option String) : OptStrLe x y ∨ OptStrLe y x :=
  match x, y with
  | none, _ => Or.inl trivial
  | some _, none => Or.inr trivial
  | some a, some b => le_total a b

theorem optStrLe_trans : ∀ {x y z : Option String},
    OptStrLe x y → OptStrLe y z → OptStrLe x z
  | none, _, _, _, _ => trivial
  | some _, none, _, h₁, _ => absurd h₁ fun h => h
  | some _, some _, none, _, h₂ => absurd h₂ fun h => h
  | some _, some _, some _, h₁, h₂ => le_trans h₁ h₂

theorem optStrLt_trichotomy (x y : Option String) :
    OptStrLt x y ∨ x = y ∨ OptStrLt y x :=
  match x, y with
  | none, none => Or.inr (Or.inl rfl)
  | none, some _ => Or.inl trivial
  | some _, none => Or.inr (Or.inr trivial)
  | some a, some b =>
    match lt_trichotomy a b with
    | Or.inl h => Or.inl h
    | Or.inr (Or.inl h) => Or.inr (Or.inl (by rw [h]))
    | Or.inr (Or.inr h) => Or.inr (Or.inr h)

theorem optStrLt_trans : ∀ {x y z : Option String},
    OptStrLt x y → OptStrLt y z → OptStrLt x z
  | none, none, _, h₁, _ => absurd h₁ fun h => h
  | none, some _, none, _, h₂ => absurd h₂ fun h => h
  | none, some _, some _, _, _ => trivial
  | some _, none, _, h₁, _ => absurd h₁ fun h => h
  | some _, some _, none, _, h₂ => absurd h₂ fun h => h
  | some _, some _, some _, h₁, h₂ => lt_trans h₁ h₂

instance : IsTotal Hot100Row RowLe := by
  constructor
  intro r₁ r₂
  rcases optStrLt_trichotomy r₁.artist r₂.artist with h | h | h
  · exact Or.inl (Or.inl h)
  · rcases optStrLe_total r₁.song r₂.song with hs | hs
    · exact Or.inl (Or.inr ⟨h, hs⟩)
    · exact Or.inr (Or.inr ⟨h.symm, hs⟩)
  · exact Or.inr (Or.inl h)

instance : IsTrans Hot100Row RowLe := by
  constructor
  intro a b c hab hbc
  rcases hab with hab | ⟨hab, habs⟩
  · rcases hbc with hbc | ⟨hbc, _⟩
    · exact Or.inl (optStrLt_trans hab hbc)
    · exact Or.inl (hbc ▸ hab)
  · rcases hbc with hbc | ⟨hbc, hbcs⟩
    · exact Or.inl (hab ▸ hbc)
    · exact Or.inr ⟨hab.trans hbc, optStrLe_trans habs hbcs⟩

/-- Modelled from the spec: the row order produced by the database for
`ORDER BY artist, song` — the fetched rows are the relation's rows sorted by
`RowLe`. -/
def fetch_ordered (rows : List Hot100Row) : List Hot100Row :=
  List.insertionSort RowLe rows

/-- The list `table_rows` accumulated by `main` (export_to_html.py lines
194-198): each fetched `(artist, song)` pair is rendered and empty renderings
(`if row:`) are dropped. -/
def table_rows_of (rows : List Hot100Row) : List String :=
  ((fetch_ordered rows).map fun r => create_table_row r.artist r.song).filter
    fun s => s ≠ ""

/-- Everything of the HTML template (export_to_html.py lines 64-136) that
precedes the `{table_rows}` slot, after `str.format` has rewritten the
doubled braces to single ones. -/
def html_prefix : String :=
  "\n<!DOCTYPE html>\n<html>\n<head>\n    <meta charset=\"UTF-8\">\n" ++
  "    <title>Billboard Hot 100 Search Links</title>\n    <style>\n" ++
  "        body \x7b\n            font-family: \x27Segoe UI\x27, Tahoma, Geneva, Verdana, sans-serif;\n" ++
  "            margin: 20px;\n            background-color: #f5f5f5;\n        \x7d\n" ++
  "        .container \x7b\n            max-width: 1200px;\n            margin: 0 auto;\n        \x7d\n" ++
  "        table \x7b\n            width: 100%;\n            border-collapse: collapse;\n" ++
  "            background-color: white;\n            box-shadow: 0 1px 3px rgba(0,0,0,0.2);\n" ++
  "            border-radius: 8px;\n            overflow: hidden;\n        \x7d\n" ++
  "        th \x7b\n            background-color: #4a90e2;\n            color: white;\n" ++
  "            padding: 12px;\n            text-align: left;\n        \x7d\n" ++
  "        td \x7b\n            padding: 12px;\n            border-bottom: 1px solid #ddd;\n        \x7d\n" ++
  "        tr:hover \x7b\n            background-color: #f8f9fa;\n        \x7d\n" ++
  "        .search-icon \x7b\n            width: 16px;\n            height: 16px;\n" ++
  "            vertical-align: middle;\n        \x7d\n" ++
  "        a \x7b\n            color: #4a90e2;\n            text-decoration: none;\n        \x7d\n" ++
  "        a:hover \x7b\n            text-decoration: underline;\n        \x7d\n" ++
  "    </style>\n</head>\n<body>\n    <div class=\"container\">\n" ++
  "        <h1>Billboard Hot 100 Search Links</h1>\n        <table>\n" ++
  "            <thead>\n                <tr>\n                    <th>Artist</th>\n" ++
  "                    <th>Song</th>\n                    <th>Apple Music</th>\n" ++
  "                    <th>Spotify</th>\n                </tr>\n            </thead>\n" ++
  "            <tbody>\n                "

/-- Everything of the HTML template following the `{table_rows}` slot. -/
def html_suffix : String :=
  "\n            </tbody>\n        </table>\n    </div>\n</body>\n</html>\n"

/-- `get_html_template().format(table_rows=...)` (export_to_html.py line 210). -/
def html_document (table_rows : String) : String :=
  html_prefix ++ table_rows ++ html_suffix

/-- The `try` block of the exporter's `main` (export_to_html.py lines 185-230)
after a successful connection and query, as a function of the relation's rows
and of the current content of the output path (`none` when no file exists
there).  Result: the process exit code and the content of the output path
afterwards.  When `table_rows` is empty, line 201 raises, the handler at line
225 exits with status 1 and the output path is untouched; otherwise the
document is assembled and written (`Path.write_text`, line 219), overwriting
any previous content, and the process exits 0. -/
def export_main (rows : List Hot100Row) (fs : Option String) : Nat × Option String :=
  let tableRows := table_rows_of rows
  if tableRows.isEmpty then (1, fs)
  else (0, some (html_document ("\n".intercalate tableRows)))

/-- Recogniser for an outbound-link table cell: a cell whose text opens with
the anchor markup `<td><a href=` that `create_table_row` emits for the two
search-link cells (export_to_html.py lines 154 and 158). -/
def is_link_cell (cell : String) : Bool :=
  "<td><a href=".data.isPrefixOf cell.data

end ExportToHtml

namespace BillboardImport

open Billboard

@[simp] theorem encountered_nil : encountered [] = [] := rfl

@[simp] theorem encountered_cons_good (es : List Hot100Row) (fs : List ParsedFile) :
    encountered (.good es :: fs) = es ++ encountered fs := rfl

@[simp] theorem encountered_cons_bad (fs : List ParsedFile) :
    encountered (.badJson :: fs) = encountered fs := rfl

@[simp] theorem encountered_cons_unreadable (fs : List ParsedFile) :
    encountered (.unreadable :: fs) = encountered fs := rfl

theorem mem_insert_hot100 {db : List Hot100Row} {r x : Hot100Row} :
    x ∈ insert_hot100 db r ↔ x ∈ db ∨ x = r := by
  unfold insert_hot100
  by_cases h : r ∈ db
  · simp only [if_pos h]
    constructor
    · exact Or.inl
    · rintro (hx | rfl) <;> [exact hx; exact h]
  · simp [if_neg h]

theorem insert_hot100_nodup {db : List Hot100Row} {r : Hot100Row} (h : db.Nodup) :
    (insert_hot100 db r).Nodup := by
  unfold insert_hot100
  by_cases hm : r ∈ db
  · simpa [if_pos hm]
  · simp only [if_neg hm, List.nodup_append]
    exact ⟨h, by simpa using hm⟩

theorem insert_hot100_of_mem {db : List Hot100Row} {r : Hot100Row} (h : r ∈ db) :
    insert_hot100 db r = db := by
  simp [insert_hot100, if_pos h]

theorem mem_foldl_insert {entries : List Hot100Row} :
    ∀ {db : List Hot100Row} {x : Hot100Row},
      x ∈ entries.foldl insert_hot100 db ↔ x ∈ db ∨ x ∈ entries := by
  induction entries with
  | nil => simp
  | cons e es ih =>
    intro db x
    simp only [List.foldl_cons, ih, mem_insert_hot100, List.mem_cons]
    tauto

theorem foldl_insert_nodup {entries : List Hot100Row} :
    ∀ {db : List Hot100Row}, db.Nodup → (entries.foldl insert_hot100 db).Nodup := by
  induction entries with
  | nil => intro db h; simpa
  | cons e es ih =>
    intro db h
    exact ih (insert_hot100_nodup h)

theorem foldl_insert_of_subset {entries : List Hot100Row} :
    ∀ {db : List Hot100Row}, (∀ e ∈ entries, e ∈ db) →
      entries.foldl insert_hot100 db = db := by
  induction entries with
  | nil => intro db _; rfl
  | cons e es ih =>
    intro db h
    have he : e ∈ db := h e (List.mem_cons_self e es)
    rw [List.foldl_cons, insert_hot100_of_mem he]
    exact ih fun x hx => h x (List.mem_cons_of_mem e hx)

theorem mem_process_json_file {f : ParsedFile} {db : List Hot100Row} {x : Hot100Row} :
    x ∈ process_json_file f db ↔
      x ∈ db ∨ (∃ es, f = .good es ∧ x ∈ es) := by
  cases f with
  | unreadable => simp [process_json_file]
  | badJson => simp [process_json_file]
  | good es => simp [process_json_file, mem_foldl_insert]

theorem process_json_file_nodup {f : ParsedFile} {db : List Hot100Row}
    (h : db.Nodup) : (process_json_file f db).Nodup := by
  cases f with
  | unreadable => exact h
  | badJson => exact h
  | good es => exact foldl_insert_nodup h

/-- A fault-free `main_loop` commits once per file and its final state is the
plain fold of `process_json_file` over the files. -/
theorem main_loop_none (files : List ParsedFile) :
    ∀ db : List Hot100Row,
      main_loop files none { committed := db, txn := db } =
        ({ committed := files.foldl (fun d f => process_json_file f d) db,
           txn := files.foldl (fun d f => process_json_file f d) db },
         List.replicate files.length .commitEv) := by
  induction files with
  | nil => intro db; rfl
  | cons f rest ih =>
    intro db
    simp only [main_loop, List.foldl_cons, List.length_cons, Option.map_none',
      List.replicate_succ]
    rw [if_neg (by simp), ih (process_json_file f db)]

theorem run_import_eq_foldl (files : List ParsedFile) (db₀ : List Hot100Row) :
    run_import files db₀ = files.foldl (fun d f => process_json_file f d) db₀ := by
  unfold run_import import_main
  rw [main_loop_none files db₀]

theorem mem_run_import {files : List ParsedFile} :
    ∀ {db₀ : List Hot100Row} {x : Hot100Row},
      x ∈ run_import files db₀ ↔ x ∈ db₀ ∨ x ∈ encountered files := by
  intro db₀ x
  rw [run_import_eq_foldl]
  induction files generalizing db₀ with
  | nil => simp
  | cons f rest ih =>
    cases f with
    | unreadable => simpa [process_json_file] using ih
    | badJson => simpa [process_json_file] using ih
    | good es =>
      simp only [List.foldl_cons, encountered_cons_good, List.mem_append]
      rw [ih]
      simp only [process_json_file, mem_foldl_insert]
      tauto

theorem run_import_nodup {files : List ParsedFile} :
    ∀ {db₀ : List Hot100Row}, db₀.Nodup → (run_import files db₀).Nodup := by
  intro db₀ h
  rw [run_import_eq_foldl]
  induction files generalizing db₀ with
  | nil => simpa
  | cons f rest ih => exact ih (process_json_file_nodup h)

end BillboardImport

namespace ExportToHtml

open Billboard

theorem replaceChar_eq_flatMap (old : Char) (new : List Char) (l : List Char) :
    replaceChar old new l = l.flatMap fun c => if c = old then new else [c] := by
  induction l with
  | nil => rfl
  | cons c rest ih => simp only [replaceChar, ih, List.flatMap_cons]

theorem escape_three_passes (c : Char) :
    ((if c = '&' then "&amp;".data else [c]).flatMap
      fun d => (if d = '<' then "&lt;".data else [d]).flatMap
        fun e => if e = '>' then "&gt;".data else [e]) = escapeChar c := by
  by_cases h₁ : c = '&'
  · subst h₁; decide
  · by_cases h₂ : c = '<'
    · subst h₂; decide
    · by_cases h₃ : c = '>'
      · subst h₃; decide
      · simp [h₁, h₂, h₃, escapeChar]

/-- The three sequential `.replace` passes of lines 144-145 amount to one
simultaneous per-character escaping pass: the `&` characters introduced by
the first pass are never re-escaped by the later ones. -/
theorem escape_html_data (s : String) :
    (escape_html s).data = s.data.flatMap escapeChar := by
  show replaceChar '>' _ (replaceChar '<' _ (replaceChar '&' _ s.data)) = _
  rw [replaceChar_eq_flatMap, replaceChar_eq_flatMap, replaceChar_eq_flatMap,
    List.flatMap_assoc, List.flatMap_assoc]
  exact List.flatMap_congr fun c _ => escape_three_passes c

theorem lt_not_mem_escapeChar (a : Char) : '<' ∉ escapeChar a := by
  unfold escapeChar
  split_ifs with h₁ h₂ h₃
  · decide
  · decide
  · decide
  · intro h
    exact h₂ (List.mem_singleton.mp h).symm

theorem lt_not_mem_escape_html (s : String) : '<' ∉ (escape_html s).data := by
  rw [escape_html_data]
  intro h
  rcases List.mem_flatMap.mp h with ⟨a, _, ha⟩
  exact lt_not_mem_escapeChar a ha

theorem intercalate_go_exists (as : List String) :
    ∀ acc s : String, ∃ t : String, String.intercalate.go acc s as = acc ++ t := by
  induction as with
  | nil =>
    intro acc s
    exact ⟨"", by simp [String.intercalate.go]⟩
  | cons a as ih =>
    intro acc s
    obtain ⟨t, ht⟩ := ih (acc ++ s ++ a) s
    refine ⟨s ++ a ++ t, ?_⟩
    show String.intercalate.go (acc ++ s ++ a) s as = _
    rw [ht]
    simp [String.append_assoc]

theorem create_table_row_some_ne (a s : String) :
    create_table_row (some a) (some s) ≠ "" := by
  show String.intercalate "\n" (create_table_row_parts a s) ≠ ""
  unfold create_table_row_parts
  show String.intercalate.go "<tr>" "\n" _ ≠ ""
  obtain ⟨t, ht⟩ := intercalate_go_exists _ "<tr>" "\n"
  rw [ht]
  intro h
  have hd := congrArg String.data h
  rw [String.data_append] at hd
  have := (List.append_eq_nil.mp hd).1
  simp at this

end ExportToHtml

namespace ExportToHtml

open Billboard

theorem is_link_cell_td (e : String) (he : '<' ∉ e.data) :
    is_link_cell ("<td>" ++ (e ++ "</td>")) = false := by
  have hp : "<td><a href=".data = ['<', 't', 'd', '>', '<', 'a', ' ', 'h', 'r', 'e', 'f', '='] := rfl
  have ht : "<td>".data = ['<', 't', 'd', '>'] := rfl
  have hnp : ¬ ("<td><a href=".data <+: ("<td>" ++ (e ++ "</td>")).data) := by
    rw [String.data_append, String.data_append, hp, ht]
    cases hd : e.data with
    | nil => decide
    | cons c cs =>
      have hc : c ≠ '<' := fun h => he (hd ▸ (h ▸ List.mem_cons_self c cs))
      simp only [List.cons_append, List.nil_append, List.cons_prefix_cons]
      rintro ⟨-, -, -, -, h, -⟩
      exact hc h.symm
  exact Bool.eq_false_iff.mpr fun hb => hnp (List.isPrefixOf_iff_prefix.mp hb)

theorem is_link_cell_anchor (x : String) :
    is_link_cell ("<td><a href=\"" ++ x) = true := by
  unfold is_link_cell
  rw [String.data_append]
  have hq : "<td><a href=\"".data = "<td><a href=".data ++ ['"'] := rfl
  rw [hq, List.append_assoc]
  exact List.isPrefixOf_iff_prefix.mpr (List.prefix_append _ _)

theorem filter_link_cells (a s : String) :
    (create_table_row_parts a s).filter is_link_cell =
      ["<td><a href=\"" ++ create_search_url SEARCH_SITES_apple_music (a ++ " " ++ s) ++
         "\" target=\"_blank\"><img src=\"./applemusic.png\" class=\"search-icon\" alt=\"Apple Music\"></a></td>",
       "<td><a href=\"" ++ create_search_url SEARCH_SITES_spotify (a ++ " " ++ s) ++
         "\" target=\"_blank\"><img src=\"./spotify.png\" class=\"search-icon\" alt=\"Spotify\"></a></td>"] := by
  have h0 : is_link_cell "<tr>" = false := by decide
  have h5 : is_link_cell "</tr>" = false := by decide
  have h1 : is_link_cell ("<td>" ++ (escape_html a ++ "</td>")) = false :=
    is_link_cell_td _ (lt_not_mem_escape_html a)
  have h2 : is_link_cell ("<td>" ++ (escape_html s ++ "</td>")) = false :=
    is_link_cell_td _ (lt_not_mem_escape_html s)
  simp only [create_table_row_parts, SEARCH_SITES_apple_music, SEARCH_SITES_spotify,
    String.append_assoc]
  simp [List.filter_cons, h0, h1, h2, h5, is_link_cell_anchor]

end ExportToHtml

namespace ExportToHtml

open Billboard

theorem create_search_url_eq (site_info : SiteInfo) (q : String) :
    create_search_url site_info q =
      "https://www.google.com/search?q=" ++ quote_plus (q ++ " site:" ++ site_info.site) := by
  unfold create_search_url urlencode_q
  rw [← String.append_assoc]
  congr 1

theorem create_table_row_null (artist song : Option String)
    (h : song = none ∨ artist = none) :
    create_table_row artist song = "" := by
  rcases h with rfl | rfl
  · cases artist <;> rfl
  · cases song <;> rfl

theorem table_rows_of_all_null {rows : List Hot100Row}
    (h : ∀ x ∈ rows, x.song = none ∨ x.artist = none) :
    table_rows_of rows = [] := by
  unfold table_rows_of
  rw [List.filter_eq_nil_iff]
  intro cell hc
  rcases List.mem_map.mp hc with ⟨r, hr, rfl⟩
  have hrn := h r ((List.mem_insertionSort RowLe).mp hr)
  rw [create_table_row_null r.artist r.song hrn]
  simp

theorem export_main_of_no_rows {rows : List Hot100Row} (fs : Option String)
    (h : table_rows_of rows = []) :
    export_main rows fs = (1, fs) := by
  unfold export_main
  rw [h]
  rfl

theorem rowle_abba_daft :
    RowLe ⟨some "Dancing Queen", some "Abba"⟩ ⟨some "One More Time", some "Daft Punk"⟩ :=
  Or.inl (String.lt_iff_toList_lt.mpr (by decide))

theorem not_rowle_daft_abba :
    ¬ RowLe ⟨some "One More Time", some "Daft Punk"⟩ ⟨some "Dancing Queen", some "Abba"⟩ := by
  rintro (h | ⟨h, -⟩)
  · exact absurd (String.lt_iff_toList_lt.mp h) (by decide)
  · exact absurd h (by decide)

theorem fetch_ordered_example :
    fetch_ordered [⟨some "One More Time", some "Daft Punk"⟩, ⟨some "Dancing Queen", some "Abba"⟩] =
      [⟨some "Dancing Queen", some "Abba"⟩, ⟨some "One More Time", some "Daft Punk"⟩] := by
  simp [fetch_ordered, List.insertionSort, List.orderedInsert, not_rowle_daft_abba]

theorem table_rows_of_example :
    table_rows_of [⟨some "One More Time", some "Daft Punk"⟩, ⟨some "Dancing Queen", some "Abba"⟩] =
      [create_table_row (some "Abba") (some "Dancing Queen"),
       create_table_row (some "Daft Punk") (some "One More Time")] := by
  unfold table_rows_of
  rw [fetch_ordered_example]
  simp [create_table_row_some_ne]

end ExportToHtml

namespace BillboardImport

open Billboard

theorem run_import_of_encountered_subset {files : List ParsedFile} :
    ∀ {db : List Hot100Row}, (∀ x ∈ encountered files, x ∈ db) →
      run_import files db = db := by
  intro db h
  rw [run_import_eq_foldl]
  induction files generalizing db with
  | nil => rfl
  | cons f rest ih =>
    cases f with
    | unreadable => exact ih (fun x hx => h x hx)
    | badJson => exact ih (fun x hx => h x hx)
    | good es =>
      have hes : ∀ e ∈ es, e ∈ db := fun e he =>
        h e (encountered_cons_good es rest ▸ List.mem_append_left _ he)
      rw [List.foldl_cons]
      show rest.foldl (fun d f => process_json_file f d) (process_json_file (.good es) db) = db
      rw [show process_json_file (.good es) db = es.foldl insert_hot100 db from rfl,
        foldl_insert_of_subset hes]
      exact ih fun x hx => h x (encountered_cons_good es rest ▸ List.mem_append_right _ hx)

theorem main_loop_fault (files : List ParsedFile) :
    ∀ (k : Nat) (db : List Hot100Row), k < files.length →
      main_loop files (some k) { committed := db, txn := db } =
        ({ committed := (files.take k).foldl (fun d f => process_json_file f d) db,
           txn := (files.take k).foldl (fun d f => process_json_file f d) db },
         List.replicate k DbEvent.commitEv ++ [DbEvent.rollbackEv]) := by
  induction files with
  | nil =>
    intro k db h
    exact absurd h (by simp)
  | cons f rest ih =>
    intro k db hk
    cases k with
    | zero => simp [main_loop]
    | succ k' =>
      have hk' : k' < rest.length := by
        simpa [Nat.succ_lt_succ_iff] using hk
      simp only [main_loop, List.take_succ_cons, List.foldl_cons,
        List.replicate_succ, List.cons_append]
      rw [if_neg (by simp), show (some (k' + 1)).map (· - 1) = some k' by simp,
        ih k' (process_json_file f db) hk']

end BillboardImport

namespace Billboard

open BillboardImport ExportToHtml

/-- C1: Deduplication invariant — starting from an empty relation, after the
Importer processes any sequence of JSON files, the `hot100` relation contains
a row exactly for each distinct `(song, artist)` pair encountered in the
successfully parsed files: membership coincides with having been encountered,
no pair occurs twice, and an insert attempt for an already-present pair
(a 1062 uniqueness violation, which is skipped) leaves the relation
unchanged. -/
theorem import_dedup_invariant (files : List ParsedFile) :
    (∀ r : Hot100Row, r ∈ run_import files [] ↔ r ∈ encountered files) ∧
    (run_import files []).Nodup ∧
    (∀ (db : List Hot100Row) (r : Hot100Row), r ∈ db → insert_hot100 db r = db) := by
  refine ⟨fun r => ?_, run_import_nodup List.nodup_nil,
    fun db r h => insert_hot100_of_mem h⟩
  rw [mem_run_import]
  simp

/-- Witness for `import_dedup_invariant` at a concrete repeated pair. -/
theorem import_dedup_invariant_witness :
    ((⟨some "Song", some "Artist"⟩ : Hot100Row) ∈
        run_import [ParsedFile.good
          [⟨some "Song", some "Artist"⟩, ⟨some "Song", some "Artist"⟩]] []) ∧
    insert_hot100 [(⟨some "Song", some "Artist"⟩ : Hot100Row)]
        ⟨some "Song", some "Artist"⟩ = [⟨some "Song", some "Artist"⟩] :=
  ⟨((import_dedup_invariant
      [ParsedFile.good [⟨some "Song", some "Artist"⟩, ⟨some "Song", some "Artist"⟩]]).1
        ⟨some "Song", some "Artist"⟩).mpr (by decide),
   (import_dedup_invariant []).2.2 [⟨some "Song", some "Artist"⟩]
      ⟨some "Song", some "Artist"⟩ (by decide)⟩

/-- C2: Importer idempotence — re-running the Importer on the same files
leaves the committed relation unchanged, the duplicate skips are logged at
debug level only, and with a working connection the process exit code is 0. -/
theorem import_idempotent (files : List ParsedFile) (db₀ : List Hot100Row) :
    run_import files (run_import files db₀) = run_import files db₀ ∧
    duplicate_skip_log_level = LogLevel.debug ∧
    importer_exit_code true = 0 :=
  ⟨run_import_of_encountered_subset fun _ hx => mem_run_import.mpr (Or.inr hx),
   rfl, rfl⟩

end Billboard

namespace Billboard

open BillboardImport ExportToHtml

/-- C3: Exporter ordering — the fetched rows are sorted by artist and, for
equal artists, by song; they are a permutation of the relation's rows; the
emitted table rows follow that order; and on the concrete relation
`[("Daft Punk","One More Time"), ("Abba","Dancing Queen")]` Abba's row is
emitted before Daft Punk's. -/
theorem export_rows_sorted (rows : List Hot100Row) :
    List.Sorted RowLe (fetch_ordered rows) ∧
    (fetch_ordered rows).Perm rows ∧
    table_rows_of rows =
      ((fetch_ordered rows).map fun r => create_table_row r.artist r.song).filter
        (fun s => s ≠ "") ∧
    fetch_ordered [⟨some "One More Time", some "Daft Punk"⟩,
        ⟨some "Dancing Queen", some "Abba"⟩] =
      [⟨some "Dancing Queen", some "Abba"⟩, ⟨some "One More Time", some "Daft Punk"⟩] ∧
    table_rows_of [⟨some "One More Time", some "Daft Punk"⟩,
        ⟨some "Dancing Queen", some "Abba"⟩] =
      [create_table_row (some "Abba") (some "Dancing Queen"),
       create_table_row (some "Daft Punk") (some "One More Time")] :=
  ⟨List.sorted_insertionSort RowLe rows, List.perm_insertionSort RowLe rows, rfl,
   fetch_ordered_example, table_rows_of_example⟩

/-- C4: HTML escaping — the composed `.replace` passes escape exactly `&`,
`<`, `>` (to `&amp;`, `&lt;`, `&gt;`), leave every other character alone, and
render `<script>` as the inert text `&lt;script&gt;`. -/
theorem escape_exact_chars (s : String) :
    (escape_html s).data = s.data.flatMap escapeChar ∧
    (∀ c : Char, c ≠ '&' → c ≠ '<' → c ≠ '>' → escapeChar c = [c]) ∧
    escapeChar '&' = "&amp;".data ∧
    escapeChar '<' = "&lt;".data ∧
    escapeChar '>' = "&gt;".data ∧
    escape_html "<script>" = "&lt;script&gt;" := by
  refine ⟨escape_html_data s, fun c h₁ h₂ h₃ => ?_, by decide, by decide, by decide,
    by decide⟩
  simp [escapeChar, h₁, h₂, h₃]

/-- Witness for `escape_exact_chars` at a concrete string and character. -/
theorem escape_exact_chars_witness :
    ('x' ≠ '&' ∧ 'x' ≠ '<' ∧ 'x' ≠ '>') ∧
    (escape_html "a&b").data = "a&b".data.flatMap escapeChar ∧
    escapeChar 'x' = ['x'] :=
  ⟨⟨by decide, by decide, by decide⟩, (escape_exact_chars "a&b").1,
   (escape_exact_chars "a&b").2.1 'x' (by decide) (by decide) (by decide)⟩

end Billboard

namespace Billboard

open BillboardImport ExportToHtml

/-- C5: Search links — a rendered row's parts contain exactly two outbound
link cells, the Apple Music cell (targeting `music.apple.com`) before the
Spotify cell (targeting `open.spotify.com`); each link URL is the Google
search URL whose URL-encoded query is the literal string
`"<artist> <song> site:<domain>"`, built from the original, pre-escaping
artist and song values (the escaped values appear only in the artist/song
cells). -/
theorem row_search_links (artist song : String) :
    create_table_row (some artist) (some song) =
      "\n".intercalate (create_table_row_parts artist song) ∧
    (create_table_row_parts artist song).filter is_link_cell =
      ["<td><a href=\"" ++ create_search_url SEARCH_SITES_apple_music (artist ++ " " ++ song) ++
         "\" target=\"_blank\"><img src=\"./applemusic.png\" class=\"search-icon\" alt=\"Apple Music\"></a></td>",
       "<td><a href=\"" ++ create_search_url SEARCH_SITES_spotify (artist ++ " " ++ song) ++
         "\" target=\"_blank\"><img src=\"./spotify.png\" class=\"search-icon\" alt=\"Spotify\"></a></td>"] ∧
    create_search_url SEARCH_SITES_apple_music (artist ++ " " ++ song) =
      "https://www.google.com/search?q=" ++
        quote_plus (artist ++ " " ++ song ++ " site:" ++ "music.apple.com") ∧
    create_search_url SEARCH_SITES_spotify (artist ++ " " ++ song) =
      "https://www.google.com/search?q=" ++
        quote_plus (artist ++ " " ++ song ++ " site:" ++ "open.spotify.com") :=
  ⟨rfl, filter_link_cells artist song, create_search_url_eq _ _, create_search_url_eq _ _⟩

/-- C6: Zero-rows failure is atomic — whenever no table row renders
successfully, the Exporter exits 1 and the output path keeps its previous
content; in particular this holds for the empty relation. -/
theorem export_zero_rows_atomic (rows : List Hot100Row) (fs : Option String)
    (h : table_rows_of rows = []) :
    export_main rows fs = (1, fs) ∧ export_main [] fs = (1, fs) :=
  ⟨export_main_of_no_rows fs h, export_main_of_no_rows fs rfl⟩

/-- Witness for `export_zero_rows_atomic`: a relation with one all-null row
renders no table row, so the exporter fails and the previous file content
survives. -/
theorem export_zero_rows_atomic_witness :
    table_rows_of [(⟨none, none⟩ : Hot100Row)] = [] ∧
    export_main [(⟨none, none⟩ : Hot100Row)] (some "previous content") =
      (1, some "previous content") ∧
    export_main [] (some "previous content") = (1, some "previous content") :=
  ⟨rfl, export_zero_rows_atomic [⟨none, none⟩] (some "previous content") rfl⟩

end Billboard

namespace Billboard

open BillboardImport ExportToHtml

/-- C7: Parse-fault containment — a file whose content fails to parse as JSON
is logged at error level and contributes nothing, every sibling file in the
same invocation is still processed exactly as if the bad file were absent,
and the importer's exit code stays 0 when the connection succeeded. -/
theorem import_bad_json_contained (xs ys : List ParsedFile) (db₀ : List Hot100Row) :
    run_import (xs ++ ParsedFile.badJson :: ys) db₀ = run_import (xs ++ ys) db₀ ∧
    (∀ db : List Hot100Row, process_json_file ParsedFile.badJson db = db) ∧
    process_json_file_log ParsedFile.badJson = some LogLevel.error ∧
    importer_exit_code true = 0 := by
  refine ⟨?_, fun db => rfl, rfl, rfl⟩
  rw [run_import_eq_foldl, run_import_eq_foldl, List.foldl_append, List.foldl_append,
    List.foldl_cons]
  rfl

/-- C8: Transaction granularity — a fault-free run commits exactly once per
file (after all of the file's entries were attempted), and a fault raised in
the main loop at file `k` rolls back only the current uncommitted
transaction: the connection ends with the rows of the `k` already-committed
files, the working view equals the committed view, and the event trace is
`k` commits followed by one rollback. -/
theorem import_one_commit_per_file (files : List ParsedFile) (db₀ : List Hot100Row)
    (k : Nat) (hk : k < files.length) :
    (import_main files none db₀).2 = List.replicate files.length DbEvent.commitEv ∧
    (import_main files (some k) db₀).1.committed = run_import (files.take k) db₀ ∧
    (import_main files (some k) db₀).1.txn =
      (import_main files (some k) db₀).1.committed ∧
    (import_main files (some k) db₀).2 =
      List.replicate k DbEvent.commitEv ++ [DbEvent.rollbackEv] := by
  have hf := main_loop_fault files k db₀ hk
  have hn := main_loop_none files db₀
  refine ⟨?_, ?_, ?_, ?_⟩
  · show (main_loop files none _).2 = _
    rw [hn]
  · show (main_loop files (some k) _).1.committed = _
    rw [hf, run_import_eq_foldl]
  · show (main_loop files (some k) _).1.txn = (main_loop files (some k) _).1.committed
    rw [hf]
  · show (main_loop files (some k) _).2 = _
    rw [hf]

/-- Witness for `import_one_commit_per_file` on a concrete two-file run with
a fault at the second file. -/
theorem import_one_commit_per_file_witness :
    1 < ([ParsedFile.badJson, ParsedFile.badJson] : List ParsedFile).length ∧
    ((import_main [ParsedFile.badJson, ParsedFile.badJson] none []).2 =
        List.replicate
          ([ParsedFile.badJson, ParsedFile.badJson] : List ParsedFile).length
          DbEvent.commitEv ∧
     (import_main [ParsedFile.badJson, ParsedFile.badJson] (some 1) []).1.committed =
        run_import
          (([ParsedFile.badJson, ParsedFile.badJson] : List ParsedFile).take 1) [] ∧
     (import_main [ParsedFile.badJson, ParsedFile.badJson] (some 1) []).1.txn =
        (import_main [ParsedFile.badJson, ParsedFile.badJson] (some 1) []).1.committed ∧
     (import_main [ParsedFile.badJson, ParsedFile.badJson] (some 1) []).2 =
        List.replicate 1 DbEvent.commitEv ++ [DbEvent.rollbackEv]) :=
  ⟨by decide, import_one_commit_per_file [ParsedFile.badJson, ParsedFile.badJson] [] 1
    (by decide)⟩

end Billboard

namespace Billboard

open BillboardImport ExportToHtml

/-- C9: A stored row with a null song or artist fails row construction: the
rendering is the empty string (the row is excluded from output), the fault is
logged at error level, and a relation containing only such rows renders zero
table rows, so the Exporter aborts with exit code 1 leaving the output path
untouched. -/
theorem null_field_row_not_rendered (r : Hot100Row) (rows : List Hot100Row)
    (fs : Option String) (hr : r.song = none ∨ r.artist = none)
    (hall : ∀ x ∈ rows, x.song = none ∨ x.artist = none) :
    create_table_row r.artist r.song = "" ∧
    create_table_row_log r.artist r.song = some LogLevel.error ∧
    table_rows_of rows = [] ∧
    export_main rows fs = (1, fs) := by
  have h3 := table_rows_of_all_null hall
  refine ⟨create_table_row_null r.artist r.song hr, ?_, h3,
    export_main_of_no_rows fs h3⟩
  rcases hr with hs | ha
  · rw [hs]; cases r.artist <;> rfl
  · rw [ha]; cases r.song <;> rfl

/-- Witness for `null_field_row_not_rendered` on a row with a null song. -/
theorem null_field_row_not_rendered_witness :
    ((⟨none, some "A"⟩ : Hot100Row).song = none ∨
      (⟨none, some "A"⟩ : Hot100Row).artist = none) ∧
    (∀ x ∈ [(⟨none, some "A"⟩ : Hot100Row)], x.song = none ∨ x.artist = none) ∧
    (create_table_row (⟨none, some "A"⟩ : Hot100Row).artist
        (⟨none, some "A"⟩ : Hot100Row).song = "" ∧
     create_table_row_log (⟨none, some "A"⟩ : Hot100Row).artist
        (⟨none, some "A"⟩ : Hot100Row).song = some LogLevel.error ∧
     table_rows_of [(⟨none, some "A"⟩ : Hot100Row)] = [] ∧
     export_main [(⟨none, some "A"⟩ : Hot100Row)] (some "old") = (1, some "old")) :=
  ⟨Or.inl rfl, by decide,
   null_field_row_not_rendered ⟨none, some "A"⟩ [⟨none, some "A"⟩] (some "old")
     (Or.inl rfl) (by decide)⟩

/-- C10: An input path that cannot be opened at all is handled like any other
per-file fault: logged at error level, skipped without touching the relation,
the remaining files are processed exactly as if it were absent, and the
importer still exits 0 when the connection succeeded. -/
theorem import_unreadable_contained (xs ys : List ParsedFile) (db₀ : List Hot100Row) :
    run_import (xs ++ ParsedFile.unreadable :: ys) db₀ = run_import (xs ++ ys) db₀ ∧
    (∀ db : List Hot100Row, process_json_file ParsedFile.unreadable db = db) ∧
    process_json_file_log ParsedFile.unreadable = some LogLevel.error ∧
    importer_exit_code true = 0 := by
  refine ⟨?_, fun db => rfl, rfl, rfl⟩
  rw [run_import_eq_foldl, run_import_eq_foldl, List.foldl_append, List.foldl_append,
    List.foldl_cons]
  rfl

end Billboard
